import Mathlib

/-!
Shallow embedding of the DUCK GitHub-activity checker
(src/duck/models.py and src/duck/core.py).

Python dict values are modelled by the inductive `PyVal`; a keyword-argument
mapping is a `List (String × PyVal)`.  Python `datetime` objects are modelled
by `PyDateTime`: local wall-clock seconds since the Unix epoch plus an
optional UTC offset in seconds (`none` = naive datetime).  `datetime.date()`
returns the local calendar day, i.e. floor division of the wall clock by
86400.  Network traffic is modelled by response oracles: a function from page
index to the page outcome.
-/

/-- Python `datetime`: local wall-clock seconds since the epoch and an
optional UTC offset in seconds (`none` models a naive datetime). -/
structure PyDateTime where
  wall : Int
  tz : Option Int
  deriving DecidableEq, Repr

/-- Python `datetime.date()` as an epoch-day number: the *local* calendar
day, taken from the wall-clock fields, ignoring the offset. -/
def PyDateTime.date (d : PyDateTime) : Int :=
  Int.fdiv d.wall 86400

/-- The UTC calendar day of the instant denoted by an aware datetime
(a naive one is read as UTC).  This is the spec's notion of "the UTC
calendar date of `created_at`"; the code itself never computes it. -/
def PyDateTime.utcDate (d : PyDateTime) : Int :=
  Int.fdiv (d.wall - d.tz.getD 0) 86400

/-- Python values as they appear in API payload items. -/
inductive PyVal where
  | pyNone
  | pyStr (s : String)
  | pyInt (n : Int)
  | pyBool (b : Bool)
  | pyDt (d : PyDateTime)
  | pyDict (fields : List (String × PyVal))
  | pyList (elems : List PyVal)

/-- A raw payload item: the keyword-argument mapping passed to a model. -/
abbrev RawItem := List (String × PyVal)

/-- Dictionary access on a raw item. -/
def lookupKey (key : String) : RawItem → Option PyVal
  | [] => Option.none
  | (k, v) :: rest => if k = key then some v else lookupKey key rest

/-- Gregorian leap-year test. -/
def isLeap (y : Int) : Bool :=
  (y % 4 == 0 && y % 100 != 0) || y % 400 == 0

/-- Number of days in a month. -/
def daysInMonth (y : Int) (m : Nat) : Nat :=
  if m = 2 then (if isLeap y then 29 else 28)
  else if m = 4 ∨ m = 6 ∨ m = 9 ∨ m = 11 then 30
  else 31

/-- Epoch-day number of a civil date (days since 1970-01-01). -/
def daysFromCivil (y : Int) (m d : Nat) : Int :=
  let yy := y - (if m ≤ 2 then 1 else 0)
  let era := Int.fdiv yy 400
  let yoe := yy - era * 400
  let mp : Nat := (m + 9) % 12
  let doy : Int := ((153 * mp + 2) / 5 + d - 1 : Nat)
  let doe : Int := yoe * 365 + Int.fdiv yoe 4 - Int.fdiv yoe 100 + doy
  era * 146097 + doe - 719468

/-- Read exactly `n` decimal digits, returning their value and the rest. -/
def readDigits : Nat → Nat → List Char → Option (Nat × List Char)
  | acc, 0, cs => some (acc, cs)
  | acc, n + 1, c :: cs =>
      if c.isDigit then readDigits (acc * 10 + (c.toNat - 48)) n cs
      else Option.none
  | _, _ + 1, [] => Option.none

/-- Consume one expected character. -/
def expectChar (c : Char) : List Char → Option (List Char)
  | d :: cs => if d = c then some cs else Option.none
  | [] => Option.none

/-- Optional `:SS[.ffffff]` part of an ISO time. -/
def parseSecondsFrac : List Char → Option (Nat × List Char)
  | ':' :: cs => do
      let (ss, cs) ← readDigits 0 2 cs
      match cs with
      | '.' :: cs2 =>
          let ds := cs2.takeWhile Char.isDigit
          if ds.length = 0 ∨ 6 < ds.length then Option.none
          else some (ss, cs2.drop ds.length)
      | _ => some (ss, cs)
  | cs => some (0, cs)

/-- Optional trailing `±HH:MM` UTC offset; `none` result means naive. -/
def parseOffset : List Char → Option (Option Int)
  | [] => some Option.none
  | sign :: cs =>
      if sign = '+' ∨ sign = '-' then do
        let (oh, cs) ← readDigits 0 2 cs
        let cs ← expectChar ':' cs
        let (om, cs) ← readDigits 0 2 cs
        if cs ≠ ([] : List Char) ∨ 23 < oh ∨ 59 < om then Option.none
        else
          let mag : Int := oh * 3600 + om * 60
          some (some (if sign = '-' then -mag else mag))
      else Option.none

/-- Python `datetime.fromisoformat` on the formats this program feeds it:
`YYYY-MM-DD[{T or space}HH:MM[:SS[.ffffff]][±HH:MM]]`. -/
def fromisoformat (s : String) : Option PyDateTime := do
  let cs := s.data
  let (y, cs) ← readDigits 0 4 cs
  let cs ← expectChar '-' cs
  let (mo, cs) ← readDigits 0 2 cs
  let cs ← expectChar '-' cs
  let (d, cs) ← readDigits 0 2 cs
  if y < 1 ∨ 9999 < y ∨ mo < 1 ∨ 12 < mo ∨ d < 1 ∨ daysInMonth (y : Int) mo < d then
    Option.none
  else
    let day := daysFromCivil (y : Int) mo d
    match cs with
    | [] => some { wall := day * 86400, tz := Option.none }
    | sep :: cs =>
        if sep = 'T' ∨ sep = ' ' then do
          let (hh, cs) ← readDigits 0 2 cs
          let cs ← expectChar ':' cs
          let (mi, cs) ← readDigits 0 2 cs
          let (ss, cs) ← parseSecondsFrac cs
          if 23 < hh ∨ 59 < mi ∨ 59 < ss then Option.none
          else do
            let tz ← parseOffset cs
            some { wall := day * 86400 + ((hh * 3600 + mi * 60 + ss : Nat) : Int), tz := tz }
        else Option.none

/-- Replace every `Z` character by the six characters `+00:00`. -/
def replaceZchars : List Char → List Char
  | [] => []
  | c :: cs =>
      if c = 'Z' then '+' :: '0' :: '0' :: ':' :: '0' :: '0' :: replaceZchars cs
      else c :: replaceZchars cs

/-- `value.replace("Z", "+00:00")` from the validators: every occurrence
of the one-character substring `Z` is replaced. -/
def replaceZ (s : String) : String :=
  ⟨replaceZchars s.data⟩

/-- `dt.replace(tzinfo=timezone.utc) if dt.tzinfo is None else dt`:
label a naive datetime as UTC without touching the wall clock. -/
def ensureAware (d : PyDateTime) : PyDateTime :=
  match d.tz with
  | Option.none => { d with tz := some 0 }
  | some _ => d

/-! ## models.py -/

/-- `GitHubEvent.parse_created_at`: the `mode="before"` validator for the
required `created_at` field.  Strings go through
`fromisoformat(value.replace("Z", "+00:00"))`; naive results are labeled
UTC; typed datetimes pass through with the same naive-to-UTC labeling;
anything else raises (modelled as `none`). -/
def GitHubEvent.parse_created_at (v : PyVal) : Option PyDateTime :=
  match v with
  | .pyStr s => (fromisoformat (replaceZ s)).map ensureAware
  | .pyDt d => some (ensureAware d)
  | _ => Option.none

/-- `GitHubEvent`: `id`, `type` (required strings), `created_at` (required
datetime), plus two optional free-form dicts. -/
structure GitHubEvent where
  id : String
  type : String
  created_at : PyDateTime
  actor : Option RawItem
  payload : Option RawItem

/-- Pydantic check for a `str` field. -/
def asStr : PyVal → Option String
  | .pyStr s => some s
  | _ => Option.none

/-- Pydantic check for an `int` field. -/
def asInt : PyVal → Option Int
  | .pyInt n => some n
  | _ => Option.none

/-- Pydantic check for a `bool` field. -/
def asBool : PyVal → Option Bool
  | .pyBool b => some b
  | _ => Option.none

/-- Pydantic check for an `Optional[str]` field value. -/
def asOptStr : PyVal → Option (Option String)
  | .pyNone => some Option.none
  | .pyStr s => some (some s)
  | _ => Option.none

/-- Pydantic check for an `Optional[Dict[str, Any]]` field value. -/
def asOptDict : PyVal → Option (Option RawItem)
  | .pyNone => some Option.none
  | .pyDict m => some (some m)
  | _ => Option.none

/-- An optional field with a default: missing keys take the default,
present values must pass the field check. -/
def optField {α : Type} (raw : RawItem) (key : String) (check : PyVal → Option α)
    (dflt : α) : Option α :=
  match lookupKey key raw with
  | Option.none => some dflt
  | some v => check v

/-- Pydantic construction of a `GitHubEvent` from a raw mapping
(`extra="ignore"`): `none` models a `ValidationError`. -/
def GitHubEvent.construct (raw : RawItem) : Option GitHubEvent := do
  let id ← (lookupKey "id" raw).bind asStr
  let ty ← (lookupKey "type" raw).bind asStr
  let cv ← lookupKey "created_at" raw
  let created ← GitHubEvent.parse_created_at cv
  let actor ← optField raw "actor" asOptDict Option.none
  let payload ← optField raw "payload" asOptDict Option.none
  some ⟨id, ty, created, actor, payload⟩

/-- Wrap an optional string back into a Python value. -/
def optStrVal : Option String → PyVal
  | Option.none => .pyNone
  | some s => .pyStr s

/-- Wrap an optional datetime back into a Python value. -/
def optDtVal : Option PyDateTime → PyVal
  | Option.none => .pyNone
  | some d => .pyDt d

/-- Wrap an optional dict back into a Python value. -/
def optDictVal : Option RawItem → PyVal
  | Option.none => .pyNone
  | some m => .pyDict m

/-- `model_dump()` of a `GitHubEvent`: every recognized field with its
stored value. -/
def GitHubEvent.model_dump (e : GitHubEvent) : RawItem :=
  [("id", .pyStr e.id), ("type", .pyStr e.type), ("created_at", .pyDt e.created_at),
   ("actor", optDictVal e.actor), ("payload", optDictVal e.payload)]

/-- `PullRequestUser`: `login`, `id` required, `html_url` optional. -/
structure PullRequestUser where
  login : String
  id : Int
  html_url : Option String
  deriving DecidableEq, Repr

/-- Pydantic construction of a `PullRequestUser` from a raw mapping. -/
def PullRequestUser.construct (raw : RawItem) : Option PullRequestUser := do
  let login ← (lookupKey "login" raw).bind asStr
  let id ← (lookupKey "id" raw).bind asInt
  let hu ← optField raw "html_url" asOptStr Option.none
  some ⟨login, id, hu⟩

/-- `model_dump()` of a `PullRequestUser`. -/
def PullRequestUser.model_dump (u : PullRequestUser) : RawItem :=
  [("login", .pyStr u.login), ("id", .pyInt u.id), ("html_url", optStrVal u.html_url)]

/-- `PullRequestSimple.parse_datetime_fields`: the shared `mode="before"`
validator for `created_at`, `updated_at`, `closed_at`, `merged_at`.
`None` passes through; the rest is the same logic as
`GitHubEvent.parse_created_at`. -/
def PullRequestSimple.parse_datetime_fields (v : PyVal) : Option (Option PyDateTime) :=
  match v with
  | .pyNone => some Option.none
  | .pyStr s => (fromisoformat (replaceZ s)).map (fun d => some (ensureAware d))
  | .pyDt d => some (some (ensureAware d))
  | _ => Option.none

/-- `PullRequestSimple`: a pull request as returned by the search API.
`assignees` defaults to `[]` and `requested_reviewers` to
`Field(default_factory=list)`, i.e. both default to an *empty list*,
not to `None`. -/
structure PullRequestSimple where
  id : Int
  html_url : String
  number : Int
  title : String
  state : String
  locked : Bool
  user : Option PullRequestUser
  body : Option String
  created_at : PyDateTime
  updated_at : PyDateTime
  closed_at : Option PyDateTime
  merged_at : Option PyDateTime
  assignees : Option (List PullRequestUser)
  requested_reviewers : Option (List PullRequestUser)
  repository_url : Option String
  deriving DecidableEq, Repr

/-- Pydantic check for an `Optional[PullRequestUser]` field value: a dict
that fails the nested validation fails the whole record. -/
def asOptUser : PyVal → Option (Option PullRequestUser)
  | .pyNone => some Option.none
  | .pyDict m => (PullRequestUser.construct m).map some
  | _ => Option.none

/-- Validate each element of a `List[PullRequestUser]` value. -/
def asUserList : List PyVal → Option (List PullRequestUser)
  | [] => some []
  | .pyDict m :: vs => do
      let u ← PullRequestUser.construct m
      let us ← asUserList vs
      some (u :: us)
  | _ :: _ => Option.none

/-- Pydantic check for an `Optional[List[PullRequestUser]]` field value. -/
def asOptUserList : PyVal → Option (Option (List PullRequestUser))
  | .pyNone => some Option.none
  | .pyList l => (asUserList l).map some
  | _ => Option.none

/-- Required datetime field: run the validator, then reject `None`. -/
def requiredDt (raw : RawItem) (key : String) : Option PyDateTime := do
  let v ← lookupKey key raw
  let r ← PullRequestSimple.parse_datetime_fields v
  r

/-- Pydantic construction of a `PullRequestSimple` from a raw mapping
(`extra="ignore"`): `none` models a `ValidationError`. -/
def PullRequestSimple.construct (raw : RawItem) : Option PullRequestSimple := do
  let id ← (lookupKey "id" raw).bind asInt
  let hu ← (lookupKey "html_url" raw).bind asStr
  let number ← (lookupKey "number" raw).bind asInt
  let title ← (lookupKey "title" raw).bind asStr
  let state ← (lookupKey "state" raw).bind asStr
  let locked ← (lookupKey "locked" raw).bind asBool
  let user ← optField raw "user" asOptUser Option.none
  let body ← optField raw "body" asOptStr Option.none
  let created ← requiredDt raw "created_at"
  let updated ← requiredDt raw "updated_at"
  let closed ← optField raw "closed_at" PullRequestSimple.parse_datetime_fields Option.none
  let merged ← optField raw "merged_at" PullRequestSimple.parse_datetime_fields Option.none
  let assignees ← optField raw "assignees" asOptUserList (some [])
  let reviewers ← optField raw "requested_reviewers" asOptUserList (some [])
  let repoUrl ← optField raw "repository_url" asOptStr Option.none
  some ⟨id, hu, number, title, state, locked, user, body, created, updated,
        closed, merged, assignees, reviewers, repoUrl⟩

/-- Wrap an optional user list back into a Python value. -/
def optUsersVal : Option (List PullRequestUser) → PyVal
  | Option.none => .pyNone
  | some us => .pyList (us.map (fun u => .pyDict u.model_dump))

/-- Wrap an optional user back into a Python value. -/
def optUserVal : Option PullRequestUser → PyVal
  | Option.none => .pyNone
  | some u => .pyDict u.model_dump

/-- `model_dump()` of a `PullRequestSimple`: every recognized field with
its stored value. -/
def PullRequestSimple.model_dump (pr : PullRequestSimple) : RawItem :=
  [("id", .pyInt pr.id), ("html_url", .pyStr pr.html_url), ("number", .pyInt pr.number),
   ("title", .pyStr pr.title), ("state", .pyStr pr.state), ("locked", .pyBool pr.locked),
   ("user", optUserVal pr.user), ("body", optStrVal pr.body),
   ("created_at", .pyDt pr.created_at), ("updated_at", .pyDt pr.updated_at),
   ("closed_at", optDtVal pr.closed_at), ("merged_at", optDtVal pr.merged_at),
   ("assignees", optUsersVal pr.assignees),
   ("requested_reviewers", optUsersVal pr.requested_reviewers),
   ("repository_url", optStrVal pr.repository_url)]

/-! ## core.py -/

/-- `_parse_events_from_response`: try each item, append the ones that
validate, skip (with a warning) the ones that raise. -/
def parse_events_from_response : List RawItem → List GitHubEvent
  | [] => []
  | item :: rest =>
      match GitHubEvent.construct item with
      | some e => e :: parse_events_from_response rest
      | Option.none => parse_events_from_response rest

/-- `_parse_prs_from_items`: same skip-on-validation-failure loop for
pull-request items. -/
def parse_prs_from_items : List RawItem → List PullRequestSimple
  | [] => []
  | item :: rest =>
      match PullRequestSimple.construct item with
      | some pr => pr :: parse_prs_from_items rest
      | Option.none => parse_prs_from_items rest

/-- Outcome of one request to the events endpoint: `fail` covers every
hard failure of `_fetch_single_events_page` (HTTP error, timeout, other
transport error, JSON decode error, or a top-level value that is not a
list); `ok` carries the raw items and whether a `rel="next"` link was
present. -/
inductive EvPage where
  | fail
  | ok (items : List RawItem) (next : Bool)

/-- Outcome of one request to the search endpoint: `fail` covers every
hard failure of `_fetch_single_prs_page` (HTTP/transport/JSON errors, a
body that is not a dict with an `items` key, or an `items` value that is
not a list); `ok` carries the raw items, the `rel="next"` indicator and
the reported `total_count`. -/
inductive PrPage where
  | fail
  | ok (items : List RawItem) (next : Bool) (total_count : Int)

/-- A server for the events endpoint: the response to each page request,
indexed by the number of pages fetched so far (page 1 is index 0). -/
abbrev EvOracle := Nat → EvPage

/-- A server for the search endpoint: the response for each value of the
1-based `page` parameter. -/
abbrev PrOracle := Nat → PrPage

/-- `_fetch_single_events_page` given the server's response: on success
return the parsed events and the next-page indicator, on any hard failure
return `(None, None)` — here the parsed-events component `none`. -/
def fetch_single_events_page (resp : EvPage) : Option (List GitHubEvent) × Bool :=
  match resp with
  | .fail => (Option.none, false)
  | .ok items next => (some (parse_events_from_response items), next)

/-- The `while next_url and pages_fetched < max_pages` loop of
`fetch_github_user_public_events`.  `fuel` is `max_pages - pages_fetched`;
the second component counts page requests actually performed.  Entering
the loop body requires a pending next URL (implicit in being called) and
remaining budget (`fuel > 0`). -/
def eventLoop (oracle : EvOracle) : Nat → Nat → List GitHubEvent →
    Option (List GitHubEvent) × Nat
  | 0, _, acc => (some acc, 0)
  | fuel + 1, page, acc =>
      match fetch_single_events_page (oracle page) with
      | (Option.none, _) => (Option.none, 1)
      | (some page_events, next) =>
          let acc := acc ++ page_events
          if next then
            let r := eventLoop oracle fuel (page + 1) acc
            (r.1, r.2 + 1)
          else (some acc, 1)

/-- `fetch_github_user_public_events`, instrumented with the number of
page requests performed.  An empty username fails immediately with no
request; `max_pages` enters as the loop budget. -/
def fetchEventsRun (username : String) (oracle : EvOracle) (max_pages : Int) :
    Option (List GitHubEvent) × Nat :=
  if username = "" then (Option.none, 0)
  else eventLoop oracle max_pages.toNat 0 []

/-- The value `fetch_github_user_public_events` returns to its caller. -/
def fetch_github_user_public_events (username : String) (oracle : EvOracle)
    (max_pages : Int) : Option (List GitHubEvent) :=
  (fetchEventsRun username oracle max_pages).1

/-- `find_push_events_in_date_range`: `False` on a `None` or empty list,
otherwise scan for a `PushEvent` whose `created_at.date()` lies in the
inclusive range. -/
def find_push_events_in_date_range (events : Option (List GitHubEvent))
    (start_date end_date : Int) : Bool :=
  match events with
  | Option.none => false
  | some es =>
      if es.isEmpty then false
      else es.any (fun e =>
        e.type == "PushEvent" &&
        decide (start_date ≤ e.created_at.date ∧ e.created_at.date ≤ end_date))

/-- `find_todays_push_events`: the single-day specialization. -/
def find_todays_push_events (events : Option (List GitHubEvent))
    (today_utc_date : Int) : Bool :=
  find_push_events_in_date_range events today_utc_date today_utc_date

/-- `_fetch_single_prs_page` given the server's response: parse the items,
and report more pages only when a next link is present *and* the current
page's raw `items` list is non-empty. -/
def fetch_single_prs_page (resp : PrPage) :
    Option (List PullRequestSimple) × Bool × Int :=
  match resp with
  | .fail => (Option.none, false, 0)
  | .ok items next total_count =>
      let has_more := next && !items.isEmpty
      (some (parse_prs_from_items items), has_more, total_count)

/-- The `while has_more_pages and pages_fetched < max_pages` loop of
`fetch_user_pull_requests`; `page` is the 1-based `page` parameter and the
second component counts page requests performed.  After each page the
next-page indicator is cleared when the accumulated record count reaches a
positive reported `total_count`. -/
def prLoop (oracle : PrOracle) : Nat → Nat → List PullRequestSimple →
    Option (List PullRequestSimple) × Nat
  | 0, _, acc => (some acc, 0)
  | fuel + 1, page, acc =>
      match fetch_single_prs_page (oracle page) with
      | (Option.none, _, _) => (Option.none, 1)
      | (some page_prs, has_more_from_page, total_count) =>
          let acc := acc ++ page_prs
          let has_more :=
            if 0 < total_count ∧ total_count ≤ (acc.length : Int) then false
            else has_more_from_page
          if has_more then
            let r := prLoop oracle fuel (page + 1) acc
            (r.1, r.2 + 1)
          else (some acc, 1)

/-- `fetch_user_pull_requests`, instrumented with the number of page
requests performed. -/
def fetchPrsRun (username : String) (oracle : PrOracle) (max_pages : Int) :
    Option (List PullRequestSimple) × Nat :=
  if username = "" then (Option.none, 0)
  else prLoop oracle max_pages.toNat 1 []

/-- The value `fetch_user_pull_requests` returns to its caller. -/
def fetch_user_pull_requests (username : String) (oracle : PrOracle)
    (max_pages : Int) : Option (List PullRequestSimple) :=
  (fetchPrsRun username oracle max_pages).1

/-- `find_todays_commits`: fetch the events, return `False` on a falsy
result (`None` *or* an empty list), otherwise classify against today. -/
def find_todays_commits (username : String) (oracle : EvOracle)
    (max_event_pages : Int) (today_utc : Int) : Bool :=
  match fetch_github_user_public_events username oracle max_event_pages with
  | Option.none => false
  | some es =>
      if es.isEmpty then false
      else find_todays_push_events (some es) today_utc

/-- One pull request's test inside the `find_prs_last_days` loop: created
in range OR updated in range, each date tested independently. -/
def prDateMatch (pr : PullRequestSimple) (start_date today_utc_date : Int) : Bool :=
  decide (start_date ≤ pr.created_at.date ∧ pr.created_at.date ≤ today_utc_date) ||
  decide (start_date ≤ pr.updated_at.date ∧ pr.updated_at.date ≤ today_utc_date)

/-- The classification part of `find_prs_last_days` (everything after the
fetch): `False` on a falsy fetch result, otherwise scan the records with
`prDateMatch`. -/
def find_prs_classify (prs : Option (List PullRequestSimple))
    (start_date today_utc_date : Int) : Bool :=
  match prs with
  | Option.none => false
  | some l =>
      if l.isEmpty then false
      else l.any (fun pr => prDateMatch pr start_date today_utc_date)

/-- `find_prs_last_days`: compute the window, fetch, classify. -/
def find_prs_last_days (username : String) (oracle : PrOracle) (days : Int)
    (max_pr_pages : Int) (today_utc_date : Int) : Bool :=
  let start_date := today_utc_date - (days - 1)
  find_prs_classify (fetch_user_pull_requests username oracle max_pr_pages)
    start_date today_utc_date

/-! ## Claims -/

/-- An events server that hard-fails every request (e.g. HTTP 403 on the
events endpoint). -/
def alwaysFailEv : EvOracle := fun _ => .fail

/-- An events server that succeeds with an empty page and no next link:
a fetch that succeeds with no activity at all. -/
def alwaysEmptyNoNextEv : EvOracle := fun _ => .ok [] false

/-- C1, counterexample: a failing fetch yields `None` while a successful
empty fetch yields `[]`, yet `find_todays_commits` returns the very same
`False` in both situations — the outcomes are not distinguishable. -/
theorem C1_counterexample :
    fetch_github_user_public_events "octocat" alwaysFailEv 5 = Option.none ∧
    fetch_github_user_public_events "octocat" alwaysEmptyNoNextEv 5 = some [] ∧
    find_todays_commits "octocat" alwaysFailEv 5 0 = false ∧
    find_todays_commits "octocat" alwaysEmptyNoNextEv 5 0 = false := by
  refine ⟨rfl, rfl, rfl, rfl⟩

/-- C1, amended: when `fetch_github_user_public_events` signals failure
(`None`), `find_todays_commits` returns the same bare `False` that it
returns when the fetch succeeds with no events at all; the error outcome
is collapsed into `False`, not kept distinguishable. -/
theorem C1_collapse :
    (∀ (username : String) (oracle : EvOracle) (p today : Int),
      fetch_github_user_public_events username oracle p = Option.none →
      find_todays_commits username oracle p today = false) ∧
    (∀ (username : String) (oracle : EvOracle) (p today : Int),
      fetch_github_user_public_events username oracle p = some [] →
      find_todays_commits username oracle p today = false) := by
  constructor <;> intro username oracle p today h <;>
    simp [find_todays_commits, h]

/-- C1, witness for the amended claim at concrete inputs. -/
theorem C1_collapse_witness :
    find_todays_commits "octocat" alwaysFailEv 5 0 = false ∧
    find_todays_commits "octocat" alwaysEmptyNoNextEv 5 0 = false :=
  ⟨C1_collapse.1 "octocat" alwaysFailEv 5 0 rfl,
   C1_collapse.2 "octocat" alwaysEmptyNoNextEv 5 0 rfl⟩

/-- A `PushEvent` stored with UTC offset +05:00 whose local wall clock
reads 01:30 of epoch day 0, so its UTC instant falls on epoch day -1. -/
def evPlus5 : GitHubEvent :=
  ⟨"e1", "PushEvent", ⟨5400, some 18000⟩, Option.none, Option.none⟩

/-- C2, counterexample: this `PushEvent`'s UTC calendar date is -1, inside
the range `[-1, -1]`, yet `find_push_events_in_date_range` returns
`False`, because the code takes `created_at.date()` — the calendar date in
the timestamp's own stored offset — not the UTC date. -/
theorem C2_counterexample :
    evPlus5.type = "PushEvent" ∧
    PyDateTime.utcDate evPlus5.created_at = -1 ∧
    find_push_events_in_date_range (some [evPlus5]) (-1) (-1) = false := by
  refine ⟨rfl, by decide, by decide⟩

/-- C2, amended: `find_push_events_in_date_range` returns `true` iff some
record has type `"PushEvent"` and the calendar date of its `created_at`
*in its stored timezone* (`datetime.date()`, which equals the UTC date
whenever the stored offset is UTC) lies in the inclusive range; a `None`
or empty list yields `false` and the function is total. -/
theorem C2_push_in_range_localdate :
    ∀ (events : Option (List GitHubEvent)) (s e : Int),
      find_push_events_in_date_range events s e = true ↔
        ∃ ev ∈ events.getD [], ev.type = "PushEvent" ∧
          s ≤ ev.created_at.date ∧ ev.created_at.date ≤ e := by
  intro events s e
  cases events with
  | none => simp [find_push_events_in_date_range]
  | some es =>
    cases es with
    | nil => simp [find_push_events_in_date_range]
    | cons a l =>
      simp [find_push_events_in_date_range, List.any_eq_true,
            Bool.and_eq_true, beq_iff_eq, decide_eq_true_eq, and_assoc]

/-- C3: the in-range test of `find_prs_last_days` returns `true` iff some
fetched record was created in the inclusive range OR updated in it, each
date tested independently (so created-outside/updated-inside qualifies and
vice versa); a `None` or empty list yields `false`. -/
theorem C3_pr_classification :
    ∀ (prs : Option (List PullRequestSimple)) (s e : Int),
      find_prs_classify prs s e = true ↔
        ∃ pr ∈ prs.getD [],
          (s ≤ pr.created_at.date ∧ pr.created_at.date ≤ e) ∨
          (s ≤ pr.updated_at.date ∧ pr.updated_at.date ≤ e) := by
  intro prs s e
  cases prs with
  | none => simp [find_prs_classify]
  | some l =>
    cases l with
    | nil => simp [find_prs_classify]
    | cons a t =>
      simp [find_prs_classify, prDateMatch, List.any_eq_true,
            Bool.or_eq_true, decide_eq_true_eq]

/-- If a page that the events loop actually requested came back as a hard
failure, the loop's result is `None`. -/
theorem eventLoop_fail_none (oracle : EvOracle) :
    ∀ (fuel page : Nat) (acc : List GitHubEvent) (i : Nat),
      i < (eventLoop oracle fuel page acc).2 → oracle (page + i) = .fail →
      (eventLoop oracle fuel page acc).1 = Option.none := by
  intro fuel
  induction fuel with
  | zero => intro page acc i hi _; simp [eventLoop] at hi
  | succ n ih =>
    intro page acc i hi hfail
    cases hog : oracle page with
    | fail => simp [eventLoop, fetch_single_events_page, hog]
    | ok items next =>
      cases next with
      | false =>
        simp [eventLoop, fetch_single_events_page, hog] at hi
        have hz : i = 0 := by omega
        subst hz
        rw [Nat.add_zero, hog] at hfail
        exact absurd hfail (by simp)
      | true =>
        cases i with
        | zero =>
          rw [Nat.add_zero, hog] at hfail
          exact absurd hfail (by simp)
        | succ j =>
          simp only [eventLoop, fetch_single_events_page, hog] at hi ⊢
          have hj : j < (eventLoop oracle n (page + 1)
              (acc ++ parse_events_from_response items)).2 := by
            simpa using hi
          have hf2 : oracle (page + 1 + j) = .fail := by
            rw [show page + 1 + j = page + (j + 1) by omega]; exact hfail
          simpa using ih (page + 1) (acc ++ parse_events_from_response items) j hj hf2

/-- Unfolding of one successful iteration of the pull-request loop. -/
theorem prLoop_succ_ok (oracle : PrOracle) (n page : Nat)
    (acc : List PullRequestSimple) (items : List RawItem) (next : Bool)
    (total : Int) (hog : oracle page = .ok items next total) :
    prLoop oracle (n + 1) page acc =
      if (if 0 < total ∧ total ≤ ((acc ++ parse_prs_from_items items).length : Int)
          then false else next && !items.isEmpty)
      then ((prLoop oracle n (page + 1) (acc ++ parse_prs_from_items items)).1,
            (prLoop oracle n (page + 1) (acc ++ parse_prs_from_items items)).2 + 1)
      else (some (acc ++ parse_prs_from_items items), 1) := by
  simp [prLoop, fetch_single_prs_page, hog]

/-- If a page that the pull-request loop actually requested came back as a
hard failure, the loop's result is `None`. -/
theorem prLoop_fail_none (oracle : PrOracle) :
    ∀ (fuel page : Nat) (acc : List PullRequestSimple) (i : Nat),
      i < (prLoop oracle fuel page acc).2 → oracle (page + i) = .fail →
      (prLoop oracle fuel page acc).1 = Option.none := by
  intro fuel
  induction fuel with
  | zero => intro page acc i hi _; simp [prLoop] at hi
  | succ n ih =>
    intro page acc i hi hfail
    cases hog : oracle page with
    | fail => simp [prLoop, fetch_single_prs_page, hog]
    | ok items next total =>
      rw [prLoop_succ_ok oracle n page acc items next total hog] at hi ⊢
      cases hhm : (if 0 < total ∧ total ≤ ((acc ++ parse_prs_from_items items).length : Int)
          then false else next && !items.isEmpty) with
      | false =>
        rw [hhm] at hi
        simp at hi
        have hz : i = 0 := by omega
        subst hz
        rw [Nat.add_zero, hog] at hfail
        exact absurd hfail (by simp)
      | true =>
        rw [hhm] at hi
        simp at hi ⊢
        cases i with
        | zero =>
          rw [Nat.add_zero, hog] at hfail
          exact absurd hfail (by simp)
        | succ j =>
          have hj : j < (prLoop oracle n (page + 1)
              (acc ++ parse_prs_from_items items)).2 := by omega
          have hf2 : oracle (page + 1 + j) = .fail := by
            rw [show page + 1 + j = page + (j + 1) by omega]; exact hfail
          exact ih (page + 1) (acc ++ parse_prs_from_items items) j hj hf2

/-- The events loop performs at most `fuel` page requests. -/
theorem eventLoop_requests_le (oracle : EvOracle) :
    ∀ (fuel page : Nat) (acc : List GitHubEvent),
      (eventLoop oracle fuel page acc).2 ≤ fuel := by
  intro fuel
  induction fuel with
  | zero => intro page acc; simp [eventLoop]
  | succ n ih =>
    intro page acc
    cases hog : oracle page with
    | fail => simp [eventLoop, fetch_single_events_page, hog]
    | ok items next =>
      cases next with
      | false => simp [eventLoop, fetch_single_events_page, hog]
      | true =>
        simp [eventLoop, fetch_single_events_page, hog]
        have h := ih (page + 1) (acc ++ parse_events_from_response items)
        omega

/-- The pull-request loop performs at most `fuel` page requests. -/
theorem prLoop_requests_le (oracle : PrOracle) :
    ∀ (fuel page : Nat) (acc : List PullRequestSimple),
      (prLoop oracle fuel page acc).2 ≤ fuel := by
  intro fuel
  induction fuel with
  | zero => intro page acc; simp [prLoop]
  | succ n ih =>
    intro page acc
    cases hog : oracle page with
    | fail => simp [prLoop, fetch_single_prs_page, hog]
    | ok items next total =>
      rw [prLoop_succ_ok oracle n page acc items next total hog]
      cases hB : (if 0 < total ∧ total ≤ ((acc ++ parse_prs_from_items items).length : Int)
          then false else next && !items.isEmpty) with
      | false =>
        show 1 ≤ n + 1
        omega
      | true =>
        have h := ih (page + 1) (acc ++ parse_prs_from_items items)
        show (prLoop oracle n (page + 1) (acc ++ parse_prs_from_items items)).2 + 1 ≤ n + 1
        omega

/-- C4: both fetchers are all-or-nothing — if any page request actually
performed during the fetch came back as a hard failure, the whole call
returns `None`, never the partial list accumulated from earlier pages. -/
theorem C4_all_or_nothing :
    (∀ (username : String) (oracle : EvOracle) (p : Int) (i : Nat),
      i < (fetchEventsRun username oracle p).2 → oracle i = .fail →
      fetch_github_user_public_events username oracle p = Option.none) ∧
    (∀ (username : String) (oracle : PrOracle) (p : Int) (i : Nat),
      i < (fetchPrsRun username oracle p).2 → oracle (1 + i) = .fail →
      fetch_user_pull_requests username oracle p = Option.none) := by
  constructor
  · intro username oracle p i hi hfail
    unfold fetch_github_user_public_events
    unfold fetchEventsRun at hi ⊢
    by_cases hu : username = ""
    · simp [hu]
    · simp [hu] at hi ⊢
      exact eventLoop_fail_none oracle p.toNat 0 [] i hi (by simpa using hfail)
  · intro username oracle p i hi hfail
    unfold fetch_user_pull_requests
    unfold fetchPrsRun at hi ⊢
    by_cases hu : username = ""
    · simp [hu]
    · simp [hu] at hi ⊢
      exact prLoop_fail_none oracle p.toNat 1 [] i hi hfail

/-- An events server whose first page succeeds (with a next link) and
whose second page hard-fails. -/
def witnessEvOracle : EvOracle := fun n => if n = 0 then .ok [] true else .fail

/-- A search server whose first page succeeds (one invalid item, next link
present, `total_count` 0) and whose second page hard-fails. -/
def witnessPrOracle : PrOracle := fun n => if n = 1 then .ok [[]] true 0 else .fail

/-- C4, witness: a failure on the second requested page makes both whole
fetches return `None`. -/
theorem C4_witness :
    fetch_github_user_public_events "octocat" witnessEvOracle 5 = Option.none ∧
    fetch_user_pull_requests "octocat" witnessPrOracle 5 = Option.none :=
  ⟨C4_all_or_nothing.1 "octocat" witnessEvOracle 5 1 (by decide) rfl,
   C4_all_or_nothing.2 "octocat" witnessPrOracle 5 1 (by decide) rfl⟩

/-- C5: for any page budget `p ≥ 1`, each fetcher performs at most `p`
page requests, whatever the server answers (even one that always offers a
next page). -/
theorem C5_at_most_p_requests :
    ∀ (p : Int), 1 ≤ p →
      ∀ (username : String) (oracleE : EvOracle) (oracleP : PrOracle),
        ((fetchEventsRun username oracleE p).2 : Int) ≤ p ∧
        ((fetchPrsRun username oracleP p).2 : Int) ≤ p := by
  intro p hp username oracleE oracleP
  constructor
  · unfold fetchEventsRun
    by_cases hu : username = ""
    · simp [hu]; omega
    · simp [hu]
      have h := eventLoop_requests_le oracleE p.toNat 0 []
      omega
  · unfold fetchPrsRun
    by_cases hu : username = ""
    · simp [hu]; omega
    · simp [hu]
      have h := prLoop_requests_le oracleP p.toNat 1 []
      omega

/-- An events server that always reports another page. -/
def alwaysNextEv : EvOracle := fun _ => .ok [] true

/-- A search server that always reports another page and a huge total. -/
def alwaysMorePr : PrOracle := fun _ => .ok [[]] true 1000000

/-- C5, witness: with budget 2 against servers that always offer a next
page, both fetchers stop after at most 2 requests. -/
theorem C5_witness :
    ((fetchEventsRun "octocat" alwaysNextEv 2).2 : Int) ≤ 2 ∧
    ((fetchPrsRun "octocat" alwaysMorePr 2).2 : Int) ≤ 2 :=
  C5_at_most_p_requests 2 (by decide) "octocat" alwaysNextEv alwaysMorePr

/-- C6: when a page of the pull-request fetch returns zero raw items, the
loop stops right there — exactly one request from that point, returning
the accumulator — for *any* advertised next link and *any* reported
`total_count`, in particular one exceeding the records accumulated. -/
theorem C6_empty_page_stops :
    ∀ (oracle : PrOracle) (fuel page : Nat) (acc : List PullRequestSimple)
      (next : Bool) (total : Int),
      oracle page = PrPage.ok [] next total →
      prLoop oracle (fuel + 1) page acc = (some acc, 1) := by
  intro oracle fuel page acc next total hog
  rw [prLoop_succ_ok oracle fuel page acc [] next total hog]
  simp [parse_prs_from_items]

/-- A search server that always answers an empty page with a next link
and `total_count` 100. -/
def emptyPagePr : PrOracle := fun _ => PrPage.ok [] true 100

/-- C6, witness: an empty first page with `total_count` 100 and a next
link stops the loop after one request. -/
theorem C6_witness : prLoop emptyPagePr 5 1 [] = (some [], 1) :=
  C6_empty_page_stops emptyPagePr 4 1 [] true 100 rfl

/-- C10: with a non-positive page budget and a non-empty username, both
fetchers return a successful empty list after zero page requests. -/
theorem C10_nonpositive_budget :
    ∀ (username : String) (oracleE : EvOracle) (oracleP : PrOracle) (p : Int),
      username ≠ "" → p ≤ 0 →
      fetchEventsRun username oracleE p = (some [], 0) ∧
      fetchPrsRun username oracleP p = (some [], 0) := by
  intro username oE oP p hu hp
  have h0 : p.toNat = 0 := by omega
  constructor <;> simp [fetchEventsRun, fetchPrsRun, hu, h0, eventLoop, prLoop]

/-- A search server that hard-fails every request. -/
def alwaysFailPr : PrOracle := fun _ => PrPage.fail

/-- C10, witness: budget -3 yields `(some [], 0)` even against servers
that would fail every request. -/
theorem C10_witness :
    fetchEventsRun "octocat" alwaysFailEv (-3) = (some [], 0) ∧
    fetchPrsRun "octocat" alwaysFailPr (-3) = (some [], 0) :=
  C10_nonpositive_budget "octocat" alwaysFailEv alwaysFailPr (-3) (by decide) (by decide)

/-- The event page parser is the filter of the per-item validation. -/
theorem parse_events_eq_filterMap (items : List RawItem) :
    parse_events_from_response items = items.filterMap GitHubEvent.construct := by
  induction items with
  | nil => rfl
  | cons a t ih =>
    cases h : GitHubEvent.construct a <;>
      simp [parse_events_from_response, List.filterMap_cons, h, ih]

/-- The pull-request page parser is the filter of the per-item validation. -/
theorem parse_prs_eq_filterMap (items : List RawItem) :
    parse_prs_from_items items = items.filterMap PullRequestSimple.construct := by
  induction items with
  | nil => rfl
  | cons a t ih =>
    cases h : PullRequestSimple.construct a <;>
      simp [parse_prs_from_items, List.filterMap_cons, h, ih]

/-- C7: the per-page parsers return exactly the sublist of items that
validate; an item that fails validation is dropped individually — the
rest of the page, before and after it, is parsed as if it were not there
— and the parsers are total functions (no exception escapes). -/
theorem C7_record_errors_never_escalate :
    (∀ (items : List RawItem),
      parse_events_from_response items = items.filterMap GitHubEvent.construct) ∧
    (∀ (xs ys : List RawItem) (b : RawItem), GitHubEvent.construct b = Option.none →
      parse_events_from_response (xs ++ b :: ys) =
        parse_events_from_response xs ++ parse_events_from_response ys) ∧
    (∀ (items : List RawItem),
      parse_prs_from_items items = items.filterMap PullRequestSimple.construct) ∧
    (∀ (xs ys : List RawItem) (b : RawItem), PullRequestSimple.construct b = Option.none →
      parse_prs_from_items (xs ++ b :: ys) =
        parse_prs_from_items xs ++ parse_prs_from_items ys) := by
  refine ⟨parse_events_eq_filterMap, ?_, parse_prs_eq_filterMap, ?_⟩
  · intro xs ys b hb
    simp [parse_events_eq_filterMap, List.filterMap_append, List.filterMap_cons, hb]
  · intro xs ys b hb
    simp [parse_prs_eq_filterMap, List.filterMap_append, List.filterMap_cons, hb]

/-- A raw item that validates as a `GitHubEvent`. -/
def goodEvItem : RawItem :=
  [("id", .pyStr "1"), ("type", .pyStr "PushEvent"), ("created_at", .pyDt ⟨0, some 0⟩)]

/-- C7, witness: an empty mapping (missing every required field) is
dropped from the middle of a page without disturbing its neighbours. -/
theorem C7_witness :
    parse_events_from_response ([goodEvItem] ++ ([] : RawItem) :: [goodEvItem]) =
      parse_events_from_response [goodEvItem] ++ parse_events_from_response [goodEvItem] ∧
    parse_prs_from_items ([goodEvItem] ++ ([] : RawItem) :: []) =
      parse_prs_from_items [goodEvItem] ++ parse_prs_from_items [] :=
  ⟨C7_record_errors_never_escalate.2.1 [goodEvItem] [goodEvItem] [] rfl,
   C7_record_errors_never_escalate.2.2.2 [goodEvItem] [] [] rfl⟩

/-- The naive-to-UTC labeling always yields an aware datetime. -/
theorem ensureAware_tz (d : PyDateTime) : (ensureAware d).tz ≠ Option.none := by
  cases htz : d.tz <;> simp [ensureAware, htz]

/-- C8: the timestamp validators accept ISO-8601 strings with a trailing
`Z` (read as UTC), ISO-8601 strings with explicit numeric offsets, and
already-typed datetimes; a value lacking any offset is labeled UTC with
the wall clock unchanged; any other value fails; and every accepted
timestamp is timezone-aware. -/
theorem C8_timestamp_parsing :
    (∀ (v : PyVal) (d : PyDateTime),
      GitHubEvent.parse_created_at v = some d → d.tz ≠ Option.none) ∧
    (∀ (w : Int), GitHubEvent.parse_created_at (.pyDt ⟨w, Option.none⟩) = some ⟨w, some 0⟩) ∧
    (∀ (w o : Int), GitHubEvent.parse_created_at (.pyDt ⟨w, some o⟩) = some ⟨w, some o⟩) ∧
    GitHubEvent.parse_created_at (.pyStr "1970-01-02T00:00:30Z") = some ⟨86430, some 0⟩ ∧
    GitHubEvent.parse_created_at (.pyStr "1970-01-02T01:30:00+05:30") =
      some ⟨91800, some 19800⟩ ∧
    GitHubEvent.parse_created_at (.pyStr "1970-01-02T01:30:00") = some ⟨91800, some 0⟩ ∧
    GitHubEvent.parse_created_at (.pyStr "not-a-timestamp") = Option.none ∧
    (∀ (n : Int), GitHubEvent.parse_created_at (.pyInt n) = Option.none) ∧
    GitHubEvent.parse_created_at .pyNone = Option.none ∧
    (∀ (v : PyVal) (d : PyDateTime),
      PullRequestSimple.parse_datetime_fields v = some (some d) → d.tz ≠ Option.none) ∧
    PullRequestSimple.parse_datetime_fields .pyNone = some Option.none ∧
    (∀ (w : Int), PullRequestSimple.parse_datetime_fields (.pyDt ⟨w, Option.none⟩) =
      some (some ⟨w, some 0⟩)) ∧
    (∀ (w o : Int), PullRequestSimple.parse_datetime_fields (.pyDt ⟨w, some o⟩) =
      some (some ⟨w, some o⟩)) := by
  refine ⟨?_, fun w => rfl, fun w o => rfl, by decide, by decide, by decide, by decide,
          fun n => rfl, rfl, ?_, rfl, fun w => rfl, fun w o => rfl⟩
  · intro v d h
    cases v <;> simp [GitHubEvent.parse_created_at] at h
    · obtain ⟨x, _, hx⟩ := h
      rw [← hx]
      exact ensureAware_tz x
    · rw [← h]
      exact ensureAware_tz _
  · intro v d h
    cases v <;> simp [PullRequestSimple.parse_datetime_fields] at h
    · obtain ⟨x, _, hx⟩ := h
      rw [← hx]
      exact ensureAware_tz x
    · rw [← h]
      exact ensureAware_tz _

/-- C8, witness: the aware-result guarantee applied to a parsed
trailing-`Z` string and to an already-aware datetime value. -/
theorem C8_witness :
    (⟨86430, some 0⟩ : PyDateTime).tz ≠ Option.none ∧
    (⟨91800, some 19800⟩ : PyDateTime).tz ≠ Option.none :=
  ⟨C8_timestamp_parsing.1 (.pyStr "1970-01-02T00:00:30Z") ⟨86430, some 0⟩ (by decide),
   C8_timestamp_parsing.2.2.2.2.2.2.2.2.2.1 (.pyDt ⟨91800, some 19800⟩)
     ⟨91800, some 19800⟩ (by decide)⟩

/-- The minimal valid pull-request payload: only the eight required
fields. -/
def prMinRaw : RawItem :=
  [("id", .pyInt 1), ("html_url", .pyStr "u"), ("number", .pyInt 2),
   ("title", .pyStr "t"), ("state", .pyStr "open"), ("locked", .pyBool false),
   ("created_at", .pyDt ⟨0, some 0⟩), ("updated_at", .pyDt ⟨0, some 0⟩)]

/-- The record constructed from `prMinRaw`. -/
def prMin : PullRequestSimple :=
  ⟨1, "u", 2, "t", "open", false, Option.none, Option.none, ⟨0, some 0⟩, ⟨0, some 0⟩,
   Option.none, Option.none, some [], some [], Option.none⟩

/-- C9, counterexample: `assignees` is absent from the minimal payload,
but the constructed record holds `[]` for it and the dump of the
recognized fields reports it (and `requested_reviewers`) as a present,
empty list — exactly the empty-but-present placeholder the claim rules
out. -/
theorem C9_counterexample :
    lookupKey "assignees" prMinRaw = Option.none ∧
    PullRequestSimple.construct prMinRaw = some prMin ∧
    prMin.assignees = some [] ∧
    lookupKey "assignees" prMin.model_dump = some (.pyList []) ∧
    lookupKey "requested_reviewers" prMin.model_dump = some (.pyList []) := by
  refine ⟨rfl, rfl, rfl, rfl, rfl⟩

/-- C9, amended: constructing a record from a minimal valid payload (all
timestamps timezone-aware) succeeds and reproduces every required field
unchanged; the optional fields that were absent come back as explicit
nulls — not omitted — except `assignees` and `requested_reviewers`, which
are defaulted to present, empty lists. -/
theorem C9_minimal_roundtrip :
    (∀ (i ty : String) (c : PyDateTime), c.tz ≠ Option.none →
      GitHubEvent.construct
          [("id", .pyStr i), ("type", .pyStr ty), ("created_at", .pyDt c)] =
        some ⟨i, ty, c, Option.none, Option.none⟩ ∧
      GitHubEvent.model_dump ⟨i, ty, c, Option.none, Option.none⟩ =
        [("id", .pyStr i), ("type", .pyStr ty), ("created_at", .pyDt c),
         ("actor", .pyNone), ("payload", .pyNone)]) ∧
    (∀ (i n : Int) (u t st : String) (lk : Bool) (c up : PyDateTime),
      c.tz ≠ Option.none → up.tz ≠ Option.none →
      PullRequestSimple.construct
          [("id", .pyInt i), ("html_url", .pyStr u), ("number", .pyInt n),
           ("title", .pyStr t), ("state", .pyStr st), ("locked", .pyBool lk),
           ("created_at", .pyDt c), ("updated_at", .pyDt up)] =
        some ⟨i, u, n, t, st, lk, Option.none, Option.none, c, up, Option.none,
              Option.none, some [], some [], Option.none⟩ ∧
      PullRequestSimple.model_dump
          ⟨i, u, n, t, st, lk, Option.none, Option.none, c, up, Option.none,
           Option.none, some [], some [], Option.none⟩ =
        [("id", .pyInt i), ("html_url", .pyStr u), ("number", .pyInt n),
         ("title", .pyStr t), ("state", .pyStr st), ("locked", .pyBool lk),
         ("user", .pyNone), ("body", .pyNone), ("created_at", .pyDt c),
         ("updated_at", .pyDt up), ("closed_at", .pyNone), ("merged_at", .pyNone),
         ("assignees", .pyList []), ("requested_reviewers", .pyList []),
         ("repository_url", .pyNone)]) := by
  constructor
  · intro i ty c hc
    obtain ⟨cw, ctz⟩ := c
    cases ctz with
    | none => exact absurd rfl hc
    | some o => exact ⟨rfl, rfl⟩
  · intro i n u t st lk c up hc hup
    obtain ⟨cw, ctz⟩ := c
    obtain ⟨uw, utz⟩ := up
    cases ctz with
    | none => exact absurd rfl hc
    | some o =>
      cases utz with
      | none => exact absurd rfl hup
      | some o2 => exact ⟨rfl, rfl⟩

/-- C9, witness for the amended claim: the dump of the concrete minimal
pull-request record reports `assignees` as a present empty list, via the
round-trip theorem at concrete inputs. -/
theorem C9_witness :
    lookupKey "assignees" (PullRequestSimple.model_dump
      ⟨1, "u", 2, "t", "open", false, Option.none, Option.none, ⟨0, some 0⟩,
       ⟨0, some 0⟩, Option.none, Option.none, some [], some [],
       Option.none⟩) = some (.pyList []) := by
  have h := C9_minimal_roundtrip.2 1 2 "u" "t" "open" false ⟨0, some 0⟩ ⟨0, some 0⟩
    (by decide) (by decide)
  rw [h.2]
  rfl
